import Mathlib

set_option maxRecDepth 8000

/-!
Verification development for the serial audio-module protocol engine
(`BasicAudioModule` in `audiomodule.h`): frame codec, checksum, receive-side
resynchronization, the bring-up state machine, the timeout path, and the
command surface.  Machine integers are modelled as `Nat` with explicit
reductions: a `uint8_t` value is taken modulo 256, a `uint16_t` value modulo
65536, matching the wraparound semantics of the AVR target the code is
written for.
-/

namespace BasicAudioModule

/-- Fixed framing bytes of the wire protocol (enum inside `Message`). -/
def START : Nat := 0x7E

/-- Version byte, fixed in every frame. -/
def VERSION : Nat := 0xFF

/-- Length byte, always 6. -/
def LENGTH : Nat := 0x06

/-- End-of-frame marker (named `END` in the source). -/
def ENDB : Nat := 0xEF

/-- Feedback flag value: no acknowledgment requested. -/
def NO_FEEDBACK : Nat := 0x00

/-- Feedback flag value: acknowledgment requested. -/
def FEEDBACK : Nat := 0x01

/-- Source `combine(hi, lo)`: builds a 16-bit value from two 8-bit halves.
The `% 256` reductions model the `uint8_t` parameter types. -/
def combine (hi lo : Nat) : Nat := (hi % 256) * 256 + lo % 256

/-- Source `high(x)`: the high byte of a `uint16_t`. -/
def high (x : Nat) : Nat := x % 65536 / 256

/-- Source `low(x)`: the low byte of a `uint16_t`. -/
def low (x : Nat) : Nat := x % 256

/-! Message IDs (`enum MsgID : uint8_t` in the source). -/

def MID_PLAYNEXT : Nat := 0x01
def MID_PLAYPREVIOUS : Nat := 0x02
def MID_PLAYFILE : Nat := 0x03
def MID_VOLUMEUP : Nat := 0x04
def MID_VOLUMEDOWN : Nat := 0x05
def MID_SETVOLUME : Nat := 0x06
def MID_SELECTEQ : Nat := 0x07
def MID_LOOPFILE : Nat := 0x08
def MID_SELECTSOURCE : Nat := 0x09
def MID_SLEEP : Nat := 0x0A
def MID_WAKE : Nat := 0x0B
def MID_RESET : Nat := 0x0C
def MID_RESUME : Nat := 0x0D
def MID_PAUSE : Nat := 0x0E
def MID_PLAYFROMFOLDER : Nat := 0x0F
def MID_VOLUMEADJUST : Nat := 0x10
def MID_LOOPALL : Nat := 0x11
def MID_PLAYFROMMP3 : Nat := 0x12
def MID_INSERTADVERT : Nat := 0x13
def MID_PLAYFROMBIGFOLDER : Nat := 0x14
def MID_STOPADVERT : Nat := 0x15
def MID_STOP : Nat := 0x16
def MID_LOOPFOLDER : Nat := 0x17
def MID_RANDOMPLAY : Nat := 0x18
def MID_LOOPCURRENTFILE : Nat := 0x19
def MID_DISABLEDAC : Nat := 0x1A
def MID_PLAYLIST : Nat := 0x1B
def MID_PLAYWITHVOLUME : Nat := 0x1C
def MID_DEVICEINSERTED : Nat := 0x3A
def MID_DEVICEREMOVED : Nat := 0x3B
def MID_FINISHEDUSBFILE : Nat := 0x3C
def MID_FINISHEDSDFILE : Nat := 0x3D
def MID_FINISHEDFLASHFILE : Nat := 0x3E
def MID_INITCOMPLETE : Nat := 0x3F
def MID_ERROR : Nat := 0x40
def MID_ACK : Nat := 0x41
def MID_STATUS : Nat := 0x42
def MID_VOLUME : Nat := 0x43
def MID_EQ : Nat := 0x44
def MID_PLAYBACKSEQUENCE : Nat := 0x45
def MID_FIRMWAREVERSION : Nat := 0x46
def MID_USBFILECOUNT : Nat := 0x47
def MID_SDFILECOUNT : Nat := 0x48
def MID_FLASHFILECOUNT : Nat := 0x49
def MID_CURRENTUSBFILE : Nat := 0x4B
def MID_CURRENTSDFILE : Nat := 0x4C
def MID_CURRENTFLASHFILE : Nat := 0x4D
def MID_FOLDERTRACKCOUNT : Nat := 0x4E
def MID_FOLDERCOUNT : Nat := 0x4F
def MID_ENTERSTATE : Nat := 0x00

/-- All values of the `MsgID` enumeration (aliases collapse to their value). -/
def msgIDs : List Nat :=
  [0x01, 0x02, 0x03, 0x04, 0x05, 0x06, 0x07, 0x08, 0x09, 0x0A, 0x0B, 0x0C,
   0x0D, 0x0E, 0x0F, 0x10, 0x11, 0x12, 0x13, 0x14, 0x15, 0x16, 0x17, 0x18,
   0x19, 0x1A, 0x1B, 0x1C, 0x3A, 0x3B, 0x3C, 0x3D, 0x3E, 0x3F, 0x40, 0x41,
   0x42, 0x43, 0x44, 0x45, 0x46, 0x47, 0x48, 0x49, 0x4B, 0x4C, 0x4D, 0x4E,
   0x4F, 0x00]

/-- Synthetic error code reserved for the local timeout. -/
def EC_TIMEDOUT : Nat := 0x0100

/-- The buffered protocol message (`class Message`): a 10-slot byte buffer
and the current fill length (`m_length`). -/
structure Message where
  m_buf : List Nat
  m_length : Nat
deriving DecidableEq

/-- A default-constructed `Message`: the template frame with the fixed
framing bytes pre-seeded and length 0. -/
def Message.initial : Message :=
  ⟨[START, VERSION, LENGTH, 0, FEEDBACK, 0, 0, 0, 0, ENDB], 0⟩

/-- The checksum accumulation loop of `Message::sum`: a `uint16_t` sum of the
buffer bytes at offsets 1 through `LENGTH` (= 6), unrolled. -/
def sumBytes (buf : List Nat) : Nat :=
  (buf.getD 1 0 + buf.getD 2 0 + buf.getD 3 0 +
   buf.getD 4 0 + buf.getD 5 0 + buf.getD 6 0) % 65536

/-- `Message::sum`. -/
def Message.sum (m : Message) : Nat := sumBytes m.m_buf

/-- `Message::set(msgid, param, feedback)`: fills bytes 3..6, then stores the
twos-complement checksum (`~sum() + 1` on `uint16_t`) at bytes 7..8 and marks
the message complete (length 10).  `(65536 - s) % 65536` is the `Nat` form of
`~s + 1` on a 16-bit unsigned value. -/
def Message.set (m : Message) (msgid param feedback : Nat) : Message :=
  let p := param % 65536
  let buf := (((m.m_buf.set 3 (msgid % 256)).set 4 (feedback % 256)).set 5
                (p / 256)).set 6 (p % 256)
  let checksum := (65536 - sumBytes buf) % 65536
  { m_buf := (buf.set 7 (checksum / 256)).set 8 (checksum % 256),
    m_length := 10 }

/-- `Message::getBuffer`. -/
def Message.getBuffer (m : Message) : List Nat := m.m_buf

/-- `Message::getLength`. -/
def Message.getLength (m : Message) : Nat := m.m_length

/-- `Message::getMessageID`. -/
def Message.getMessageID (m : Message) : Nat := m.m_buf.getD 3 0

/-- `Message::getParamHi`. -/
def Message.getParamHi (m : Message) : Nat := m.m_buf.getD 5 0

/-- `Message::getParamLo`. -/
def Message.getParamLo (m : Message) : Nat := m.m_buf.getD 6 0

/-- `Message::getParam`. -/
def Message.getParam (m : Message) : Nat :=
  combine m.getParamHi m.getParamLo

/-- `Message::isValid`: an 8-byte frame ending with the end marker is valid;
a 10-byte frame is valid iff the 16-bit sum plus the stored checksum wraps
to zero. -/
def Message.isValid (m : Message) : Bool :=
  if m.m_length = 8 ∧ m.m_buf.getD 7 0 = ENDB then true
  else if m.m_length ≠ 10 then false
  else decide
    ((m.sum + combine (m.m_buf.getD 7 0) (m.m_buf.getD 8 0)) % 65536 = 0)

/-- `Message::receive(b)`: one step of the accumulating parser.  Returns the
completion flag and the updated message.  The `switch` on `m_length` is
rendered as an `if` chain: out-of-range lengths reset to 0 and fall through
to the template-matching branch (positions 0, 1, 2, 9); position 7 accepts an
early end marker; positions 3, 4, 5, 6, 8 store the byte verbatim. -/
def Message.receive (m : Message) (b0 : Nat) : Bool × Message :=
  let b := b0 % 256
  let pos := if 10 ≤ m.m_length then 0 else m.m_length
  if pos = 0 ∨ pos = 1 ∨ pos = 2 ∨ pos = 9 then
    if b = m.m_buf.getD pos 0 then
      (decide (pos + 1 = 10), { m with m_length := pos + 1 })
    else if b = START then (false, { m with m_length := 1 })
    else (false, { m with m_length := 0 })
  else if pos = 7 then
    if b = ENDB then (true, { m with m_length := 8 })
    else (false, { m with m_buf := m.m_buf.set 7 b, m_length := 8 })
  else
    (false, { m with m_buf := m.m_buf.set pos b, m_length := pos + 1 })

/-- Feeds a list of bytes one at a time, collecting each completion flag
(the loop body of `checkForIncomingMessage`, without consuming frames). -/
def Message.feedAll (m : Message) : List Nat → List Bool × Message
  | [] => ([], m)
  | b :: rest =>
    let r := m.receive b
    let rs := r.2.feedAll rest
    (r.1 :: rs.1, rs.2)

/-- Comparison definition following the spec words, not the source: the 16-bit
sum of the bytes the spec identifies as the checksummed ones, the bytes at
offsets 3..6 (kind, feedback, param-hi, param-lo).  The source sums offsets
1..6 instead. -/
def specChecksummedSum (m : Message) : Nat :=
  (m.m_buf.getD 3 0 + m.m_buf.getD 4 0 + m.m_buf.getD 5 0 +
   m.m_buf.getD 6 0) % 65536

/-! The protocol engine: devices, notifications, bring-up states. -/

/-- `enum Device` (the datasheet synonyms alias existing values). -/
inductive Device
  | DEV_USB
  | DEV_SDCARD
  | DEV_AUX
  | DEV_SLEEP
  | DEV_FLASH
deriving DecidableEq

/-- Implicit numeric value of each `Device` enumerator. -/
def Device.idx : Device → Nat
  | .DEV_USB => 0
  | .DEV_SDCARD => 1
  | .DEV_AUX => 2
  | .DEV_SLEEP => 3
  | .DEV_FLASH => 4

/-- `enum ModuleState`. -/
inductive ModuleState
  | MS_STOPPED
  | MS_PLAYING
  | MS_PAUSED
  | MS_ASLEEP
deriving DecidableEq

/-- One decoded notification delivered to a hook of the Notification
Dispatcher (`onAck`, `onError`, `onFolderCount`, ...).  The hooks only log,
so each is abstracted to its name and decoded arguments. -/
inductive Note
  | ack
  | currentTrack (device : Device) (file_index : Nat)
  | deviceInserted (src : Device)
  | deviceRemoved (src : Device)
  | equalizer (eq : Nat)
  | error (code : Nat)
  | deviceFileCount (device : Device) (count : Nat)
  | finishedFile (device : Device) (file_index : Nat)
  | firmwareVersion (version : Nat)
  | folderCount (count : Nat)
  | folderTrackCount (count : Nat)
  | initComplete (devices : Nat)
  | invalidMessage
  | playbackSequence (seq : Nat)
  | status (device : Device) (state : ModuleState)
  | volume (vol : Nat)
deriving DecidableEq

/-- `onMessageReceived`: the Notification Dispatcher switch.  Classifies a
completed frame by message id and emits the decoded per-kind notifications
in source order. -/
def onMessageReceived (msg : Message) : List Note :=
  let mid := msg.getMessageID
  if mid = 0x3A then
    (if msg.getParamLo &&& 0x01 ≠ 0 then [Note.deviceInserted .DEV_USB] else []) ++
    (if msg.getParamLo &&& 0x02 ≠ 0 then [Note.deviceInserted .DEV_SDCARD] else []) ++
    (if msg.getParamLo &&& 0x04 ≠ 0 then [Note.deviceInserted .DEV_AUX] else [])
  else if mid = 0x3B then
    (if msg.getParamLo &&& 0x01 ≠ 0 then [Note.deviceRemoved .DEV_USB] else []) ++
    (if msg.getParamLo &&& 0x02 ≠ 0 then [Note.deviceRemoved .DEV_SDCARD] else []) ++
    (if msg.getParamLo &&& 0x04 ≠ 0 then [Note.deviceRemoved .DEV_AUX] else [])
  else if mid = 0x3C then [Note.finishedFile .DEV_USB msg.getParam]
  else if mid = 0x3D then [Note.finishedFile .DEV_SDCARD msg.getParam]
  else if mid = 0x3E then [Note.finishedFile .DEV_FLASH msg.getParam]
  else if mid = 0x3F then
    let devices :=
      (if msg.getParamLo &&& 0x01 ≠ 0 then 1 <<< Device.idx .DEV_USB else 0) |||
      (if msg.getParamLo &&& 0x02 ≠ 0 then 1 <<< Device.idx .DEV_SDCARD else 0) |||
      (if msg.getParamLo &&& 0x04 ≠ 0 then 1 <<< Device.idx .DEV_AUX else 0) |||
      (if msg.getParamLo &&& 0x10 ≠ 0 then 1 <<< Device.idx .DEV_FLASH else 0)
    [Note.initComplete devices]
  else if mid = 0x40 then [Note.error msg.getParamLo]
  else if mid = 0x41 then [Note.ack]
  else if mid = 0x42 then
    let device :=
      if msg.getParamHi = 0x01 then Device.DEV_USB
      else if msg.getParamHi = 0x02 then Device.DEV_SDCARD
      else Device.DEV_SLEEP
    let state :=
      if msg.getParamLo = 0x00 then ModuleState.MS_STOPPED
      else if msg.getParamLo = 0x01 then ModuleState.MS_PLAYING
      else if msg.getParamLo = 0x02 then ModuleState.MS_PAUSED
      else ModuleState.MS_ASLEEP
    [Note.status device state]
  else if mid = 0x43 then [Note.volume msg.getParamLo]
  else if mid = 0x44 then [Note.equalizer msg.getParamLo]
  else if mid = 0x45 then [Note.playbackSequence msg.getParamLo]
  else if mid = 0x46 then [Note.firmwareVersion msg.getParam]
  else if mid = 0x47 then [Note.deviceFileCount .DEV_USB msg.getParam]
  else if mid = 0x48 then [Note.deviceFileCount .DEV_SDCARD msg.getParam]
  else if mid = 0x49 then [Note.deviceFileCount .DEV_FLASH msg.getParam]
  else if mid = 0x4B then [Note.currentTrack .DEV_USB msg.getParam]
  else if mid = 0x4C then [Note.currentTrack .DEV_SDCARD msg.getParam]
  else if mid = 0x4D then [Note.currentTrack .DEV_FLASH msg.getParam]
  else if mid = 0x4E then [Note.folderTrackCount msg.getParam]
  else if mid = 0x4F then [Note.folderCount msg.getParam]
  else []

/-- The concrete bring-up states (one static instance each in the source). -/
inductive StateId
  | initResettingHardware
  | initGettingVersion
  | initCheckingUSBFileCount
  | initCheckingSDFileCount
  | initSelectingUSB
  | initSelectingSD
  | initCheckingFolderCount
  | initStartPlaying
deriving DecidableEq

/-- The engine state of `BasicAudioModule`.  `m_state` is the active bring-up
state (`none` is the terminal null state).  `m_timeout` models the
`Timeout<MillisClock>` member from `timeout.h`, which is not among the
sources; following the spec it is the armed duration, or `none` when
disarmed.  `sent` records the frames written to the stream and `notes` the
notification hooks invoked, in order; the receive accumulator `m_in` is fed
externally, so completed messages enter through `receiveMessage`. -/
structure Mod where
  m_out : Message
  m_state : Option StateId
  m_timeout : Option Nat
  m_source : Device
  m_files : Nat
  m_folders : Nat
  sent : List Message
  notes : List Note
deriving DecidableEq

/-- A freshly constructed module.  `m_source`, `m_files` and `m_folders` are
uninitialized in C++ and never read before bring-up writes them; arbitrary
definite values stand in for them. -/
def Mod.initial : Mod :=
  { m_out := Message.initial, m_state := none, m_timeout := none,
    m_source := .DEV_SLEEP, m_files := 0, m_folders := 0,
    sent := [], notes := [] }

/-- `sendMessage`: writes the outbound buffer to the stream and arms the
default 200-unit timeout. -/
def sendMessage (m : Mod) : Mod :=
  { m with sent := m.sent ++ [m.m_out], m_timeout := some 200 }

/-- `sendCommand`: fills the outbound message and sends it. -/
def sendCommand (m : Mod) (msgid param : Nat) (feedback : Bool) : Mod :=
  let fb := if feedback then FEEDBACK else NO_FEEDBACK
  sendMessage { m with m_out := m.m_out.set msgid param fb }

/-- `sendQuery`: a command with no feedback request. -/
def sendQuery (m : Mod) (msgid : Nat) : Mod :=
  sendCommand m msgid 0 false

/-- `selectSource`. -/
def selectSource (m : Mod) (device : Device) : Mod :=
  match device with
  | .DEV_USB => sendCommand m MID_SELECTSOURCE 1 true
  | .DEV_SDCARD => sendCommand m MID_SELECTSOURCE 2 true
  | .DEV_FLASH => sendCommand m MID_SELECTSOURCE 5 true
  | _ => m

/-- `queryFileCount`. -/
def queryFileCount (m : Mod) (device : Device) : Mod :=
  match device with
  | .DEV_USB => sendQuery m MID_USBFILECOUNT
  | .DEV_SDCARD => sendQuery m MID_SDFILECOUNT
  | .DEV_FLASH => sendQuery m MID_FLASHFILECOUNT
  | _ => m

/-- `queryFolderCount`. -/
def queryFolderCount (m : Mod) : Mod := sendQuery m MID_FOLDERCOUNT

/-- `queryFirmwareVersion`. -/
def queryFirmwareVersion (m : Mod) : Mod := sendQuery m MID_FIRMWAREVERSION

/-- `playTrack(folder, track)`: picks the small-folder or big-folder wire
encoding from the value ranges; both arguments are `uint16_t`. -/
def playTrack (m : Mod) (folder track : Nat) : Mod :=
  let folder := folder % 65536
  let track := track % 65536
  if track < 256 then
    sendCommand m MID_PLAYFROMFOLDER ((folder <<< 8 ||| track) % 65536) true
  else if folder < 16 ∧ track ≤ 3000 then
    sendCommand m MID_PLAYFROMBIGFOLDER ((folder <<< 12 ||| track) % 65536) true
  else m

/-- The `onEvent` methods of the eight bring-up states.  The returned option
is the requested next state: the same state to stay, another to chain,
`none` for the terminal null state.  Serial prints inside the handlers are
not observable and are dropped. -/
def stateOnEvent (s : StateId) (m : Mod) (msgid paramHi paramLo : Nat) :
    Mod × Option StateId :=
  match s with
  | .initResettingHardware =>
    if msgid = MID_ENTERSTATE then
      let m := sendCommand m MID_RESET 0 false
      ({ m with m_timeout := some 10000 }, some .initResettingHardware)
    else if msgid = MID_INITCOMPLETE then (m, some .initGettingVersion)
    else if msgid = MID_ERROR then (m, none)
    else (m, some .initResettingHardware)
  | .initGettingVersion =>
    if msgid = MID_ENTERSTATE then
      (queryFirmwareVersion m, some .initGettingVersion)
    else if msgid = MID_FIRMWAREVERSION then (m, some .initCheckingUSBFileCount)
    else if msgid = MID_ERROR then
      if combine paramHi paramLo = EC_TIMEDOUT then
        (m, some .initCheckingUSBFileCount)
      else (m, some .initGettingVersion)
    else (m, some .initGettingVersion)
  | .initCheckingUSBFileCount =>
    if msgid = MID_ENTERSTATE then
      (queryFileCount m .DEV_USB, some .initCheckingUSBFileCount)
    else if msgid = MID_USBFILECOUNT then
      let count := combine paramHi paramLo
      let m := { m with m_files := count }
      if count > 0 then (m, some .initSelectingUSB)
      else (m, some .initCheckingSDFileCount)
    else if msgid = MID_ERROR then (m, some .initCheckingSDFileCount)
    else (m, some .initCheckingUSBFileCount)
  | .initCheckingSDFileCount =>
    if msgid = MID_ENTERSTATE then
      (queryFileCount m .DEV_SDCARD, some .initCheckingSDFileCount)
    else if msgid = MID_SDFILECOUNT then
      let count := combine paramHi paramLo
      let m := { m with m_files := count }
      if count > 0 then (m, some .initSelectingSD) else (m, none)
    else if msgid = MID_ERROR then (m, none)
    else (m, some .initCheckingSDFileCount)
  | .initSelectingUSB =>
    if msgid = MID_ENTERSTATE then
      (selectSource m .DEV_USB, some .initSelectingUSB)
    else if msgid = MID_ACK then
      ({ m with m_source := .DEV_USB }, some .initCheckingFolderCount)
    else (m, some .initSelectingUSB)
  | .initSelectingSD =>
    if msgid = MID_ENTERSTATE then
      (selectSource m .DEV_SDCARD, some .initSelectingSD)
    else if msgid = MID_ACK then
      ({ m with m_source := .DEV_SDCARD }, some .initCheckingFolderCount)
    else (m, some .initSelectingSD)
  | .initCheckingFolderCount =>
    if msgid = MID_ENTERSTATE then
      (queryFolderCount m, some .initCheckingFolderCount)
    else if msgid = MID_FOLDERCOUNT then
      ({ m with m_folders := paramLo % 256 }, none)
    else (m, some .initCheckingFolderCount)
  | .initStartPlaying =>
    if msgid = MID_ENTERSTATE then
      (sendCommand m MID_LOOPFOLDER 1 true, some .initStartPlaying)
    else if msgid = MID_ACK then (m, none)
    else (m, some .initStartPlaying)

/-- The transition loop of `setState`, with explicit fuel standing in for the
unbounded C++ `while`: entering a state delivers the enter pseudo-event,
whose result may chain further; returning to the original state pointer
breaks the loop.  Every entry action in the source returns its own state, so
on reachable inputs the loop stabilizes within two iterations and the fuel is
never exhausted. -/
def setStateAux : Nat → Option StateId → Mod → Option StateId → Mod
  | 0, _, m, _ => m
  | fuel + 1, original, m, new =>
    if m.m_state = new then m
    else
      match new with
      | none => { m with m_state := none }
      | some s =>
        let m1 := { m with m_state := some s }
        let p := stateOnEvent s m1 MID_ENTERSTATE 0 0
        if p.1.m_state = original then p.1
        else setStateAux fuel original p.1 p.2

/-- `setState`. -/
def setState (m : Mod) (new : Option StateId) : Mod :=
  setStateAux 16 m.m_state m new

/-- The state-machine delivery step shared by `receiveMessage` and
`checkForTimeout`: when a bring-up state is active, hand it the event and
adopt the state it requests. -/
def dispatchEvent (m : Mod) (msgid paramHi paramLo : Nat) : Mod :=
  match m.m_state with
  | none => m
  | some s =>
    let p := stateOnEvent s m msgid paramHi paramLo
    setState p.1 p.2

/-- `receiveMessage`: every completed frame goes to the Notification
Dispatcher; an invalid frame then only triggers the invalid-message hook,
a valid one is also delivered to the active bring-up state. -/
def receiveMessage (m : Mod) (msg : Message) : Mod :=
  let m1 := { m with notes := m.notes ++ onMessageReceived msg }
  if msg.isValid then
    match m1.m_state with
    | none => m1
    | some s =>
      let p := stateOnEvent s m1 msg.getMessageID msg.getParamHi msg.getParamLo
      setState p.1 p.2
  else { m1 with notes := m1.notes ++ [Note.invalidMessage] }

/-- `checkForTimeout`: the `Timeout` class lives in `timeout.h`, which is not
among the sources; following the spec, the level-triggered clock comparison
`expired()` is taken as a boolean input, and `cancel()` clears the armed
duration. -/
def checkForTimeout (m : Mod) (expired : Bool) : Mod :=
  if expired then
    let m1 := { m with m_timeout := none }
    match m1.m_state with
    | none => m1
    | some s =>
      let p := stateOnEvent s m1 MID_ERROR (high EC_TIMEDOUT) (low EC_TIMEDOUT)
      setState p.1 p.2
  else m

/-- `reset`: restart bring-up at the hardware-reset state. -/
def reset (m : Mod) : Mod := setState m (some .initResettingHardware)

/-! Helper lemmas about the receive-side parser. -/

theorem feedAll_cons (m : Message) (b : Nat) (bs : List Nat) :
    Message.feedAll m (b :: bs) =
      ((m.receive b).1 :: ((m.receive b).2.feedAll bs).1,
       ((m.receive b).2.feedAll bs).2) := rfl

theorem feedAll_append (m : Message) (xs ys : List Nat) :
    Message.feedAll m (xs ++ ys) =
      ((m.feedAll xs).1 ++ ((m.feedAll xs).2.feedAll ys).1,
       ((m.feedAll xs).2.feedAll ys).2) := by
  induction xs generalizing m with
  | nil => simp [Message.feedAll]
  | cons b bs ih => simp [Message.feedAll, ih]

/-- Feeding the tail of a frame (after the start byte was matched) stores the
payload bytes and completes exactly on the end byte, provided the byte at
position 7 is not the end marker. -/
theorem feed_from1 (x3 x4 x5 x6 x7 x8 k f ph pl ch cl : Nat)
    (hk : k < 256) (hf : f < 256) (hph : ph < 256) (hpl : pl < 256)
    (hch : ch < 256) (hcl : cl < 256) (hch2 : ch ≠ ENDB) :
    Message.feedAll ⟨[START, VERSION, LENGTH, x3, x4, x5, x6, x7, x8, ENDB], 1⟩
      [VERSION, LENGTH, k, f, ph, pl, ch, cl, ENDB] =
    ([false, false, false, false, false, false, false, false, true],
     ⟨[START, VERSION, LENGTH, k, f, ph, pl, ch, cl, ENDB], 10⟩) := by
  have hch3 : ch ≠ 239 := by simpa [ENDB] using hch2
  have s1 : Message.receive ⟨[START, VERSION, LENGTH, x3, x4, x5, x6, x7, x8, ENDB], 1⟩ VERSION
      = (false, ⟨[START, VERSION, LENGTH, x3, x4, x5, x6, x7, x8, ENDB], 2⟩) := by
    simp [Message.receive, START, VERSION, LENGTH, ENDB]
  have s2 : Message.receive ⟨[START, VERSION, LENGTH, x3, x4, x5, x6, x7, x8, ENDB], 2⟩ LENGTH
      = (false, ⟨[START, VERSION, LENGTH, x3, x4, x5, x6, x7, x8, ENDB], 3⟩) := by
    simp [Message.receive, START, VERSION, LENGTH, ENDB]
  have s3 : Message.receive ⟨[START, VERSION, LENGTH, x3, x4, x5, x6, x7, x8, ENDB], 3⟩ k
      = (false, ⟨[START, VERSION, LENGTH, k, x4, x5, x6, x7, x8, ENDB], 4⟩) := by
    simp [Message.receive, START, VERSION, LENGTH, ENDB, Nat.mod_eq_of_lt hk, List.set]
  have s4 : Message.receive ⟨[START, VERSION, LENGTH, k, x4, x5, x6, x7, x8, ENDB], 4⟩ f
      = (false, ⟨[START, VERSION, LENGTH, k, f, x5, x6, x7, x8, ENDB], 5⟩) := by
    simp [Message.receive, START, VERSION, LENGTH, ENDB, Nat.mod_eq_of_lt hf, List.set]
  have s5 : Message.receive ⟨[START, VERSION, LENGTH, k, f, x5, x6, x7, x8, ENDB], 5⟩ ph
      = (false, ⟨[START, VERSION, LENGTH, k, f, ph, x6, x7, x8, ENDB], 6⟩) := by
    simp [Message.receive, START, VERSION, LENGTH, ENDB, Nat.mod_eq_of_lt hph, List.set]
  have s6 : Message.receive ⟨[START, VERSION, LENGTH, k, f, ph, x6, x7, x8, ENDB], 6⟩ pl
      = (false, ⟨[START, VERSION, LENGTH, k, f, ph, pl, x7, x8, ENDB], 7⟩) := by
    simp [Message.receive, START, VERSION, LENGTH, ENDB, Nat.mod_eq_of_lt hpl, List.set]
  have s7 : Message.receive ⟨[START, VERSION, LENGTH, k, f, ph, pl, x7, x8, ENDB], 7⟩ ch
      = (false, ⟨[START, VERSION, LENGTH, k, f, ph, pl, ch, x8, ENDB], 8⟩) := by
    simp [Message.receive, START, VERSION, LENGTH, ENDB, Nat.mod_eq_of_lt hch, hch3, List.set]
  have s8 : Message.receive ⟨[START, VERSION, LENGTH, k, f, ph, pl, ch, x8, ENDB], 8⟩ cl
      = (false, ⟨[START, VERSION, LENGTH, k, f, ph, pl, ch, cl, ENDB], 9⟩) := by
    simp [Message.receive, START, VERSION, LENGTH, ENDB, Nat.mod_eq_of_lt hcl, List.set]
  have s9 : Message.receive ⟨[START, VERSION, LENGTH, k, f, ph, pl, ch, cl, ENDB], 9⟩ ENDB
      = (true, ⟨[START, VERSION, LENGTH, k, f, ph, pl, ch, cl, ENDB], 10⟩) := by
    simp [Message.receive, START, VERSION, LENGTH, ENDB]
  simp only [Message.feedAll, s1, s2, s3, s4, s5, s6, s7, s8, s9]

theorem receive_start0 (x3 x4 x5 x6 x7 x8 : Nat) :
    Message.receive ⟨[START, VERSION, LENGTH, x3, x4, x5, x6, x7, x8, ENDB], 0⟩ START
      = (false, ⟨[START, VERSION, LENGTH, x3, x4, x5, x6, x7, x8, ENDB], 1⟩) := by
  simp [Message.receive, START, VERSION, LENGTH, ENDB]

theorem receive_start10 (x3 x4 x5 x6 x7 x8 : Nat) :
    Message.receive ⟨[START, VERSION, LENGTH, x3, x4, x5, x6, x7, x8, ENDB], 10⟩ START
      = (false, ⟨[START, VERSION, LENGTH, x3, x4, x5, x6, x7, x8, ENDB], 1⟩) := by
  simp [Message.receive, START, VERSION, LENGTH, ENDB]

/-- Feeding a full frame into an accumulator that is empty (length 0) or holds
a completed 10-byte frame (length 10) signals completion exactly on the final
byte and leaves the new payload in the buffer. -/
theorem feed_frame (x3 x4 x5 x6 x7 x8 k f ph pl ch cl len : Nat)
    (hlen : len = 0 ∨ len = 10)
    (hk : k < 256) (hf : f < 256) (hph : ph < 256) (hpl : pl < 256)
    (hch : ch < 256) (hcl : cl < 256) (hch2 : ch ≠ ENDB) :
    Message.feedAll ⟨[START, VERSION, LENGTH, x3, x4, x5, x6, x7, x8, ENDB], len⟩
      [START, VERSION, LENGTH, k, f, ph, pl, ch, cl, ENDB] =
    ([false, false, false, false, false, false, false, false, false, true],
     ⟨[START, VERSION, LENGTH, k, f, ph, pl, ch, cl, ENDB], 10⟩) := by
  have h1 := feed_from1 x3 x4 x5 x6 x7 x8 k f ph pl ch cl hk hf hph hpl hch hcl hch2
  rcases hlen with h | h <;> subst h
  · rw [feedAll_cons, receive_start0]; simp [h1]
  · rw [feedAll_cons, receive_start10]; simp [h1]

/-- Bytes that are not the start byte are absorbed at position 0 with no
state change and no completion signal. -/
theorem feed_noise (buf : List Nat) (hbuf : buf.getD 0 0 = START) (noise : List Nat)
    (hn : ∀ b ∈ noise, b < 256 ∧ b ≠ START) :
    Message.feedAll ⟨buf, 0⟩ noise = (noise.map (fun _ => false), ⟨buf, 0⟩) := by
  induction noise with
  | nil => simp [Message.feedAll]
  | cons b bs ih =>
    have hb := hn b (by simp)
    have hb2 : b ≠ 126 := by simpa [START] using hb.2
    have hbuf2 : buf[0]?.getD 0 = 126 := by simpa [START, List.getD] using hbuf
    have step : Message.receive ⟨buf, 0⟩ b = (false, ⟨buf, 0⟩) := by
      simp [Message.receive, START, List.getD, hbuf2, Nat.mod_eq_of_lt hb.1, hb2]
    rw [feedAll_cons, step]
    simp [ih (fun x hx => hn x (by simp [hx]))]

/-- Closed form of `Message::set` applied to a default-constructed message. -/
theorem set_initial (msgid param fb : Nat)
    (hm : msgid < 256) (hf : fb < 256) (hp : param < 65536) :
    Message.initial.set msgid param fb =
      ⟨[START, VERSION, LENGTH, msgid, fb, param / 256, param % 256,
        (65536 - (261 + msgid + fb + param / 256 + param % 256)) / 256,
        (65536 - (261 + msgid + fb + param / 256 + param % 256)) % 256, ENDB], 10⟩ := by
  simp [Message.set, Message.initial, sumBytes, List.set, List.getD,
        Nat.mod_eq_of_lt hm, Nat.mod_eq_of_lt hf, Nat.mod_eq_of_lt hp,
        VERSION, LENGTH, START, ENDB]
  omega

theorem msgIDs_lt : ∀ x ∈ msgIDs, x < 256 := by decide

/-! Claim C1. -/

/-- Claim C1, counterexample: for the reset command frame the stored checksum
is 0xFEEF, the negation of the sum over offsets 1..6, while the negation of
the sum over the bytes the spec names (offsets 3..6) is 0xFFF4; the two
differ, refuting the claim that the stored checksum negates the latter sum. -/
theorem C1_counterexample :
    combine ((Message.initial.set MID_RESET 0 NO_FEEDBACK).m_buf.getD 7 0)
            ((Message.initial.set MID_RESET 0 NO_FEEDBACK).m_buf.getD 8 0) = 0xFEEF ∧
    (65536 - specChecksummedSum (Message.initial.set MID_RESET 0 NO_FEEDBACK)) % 65536
      = 0xFFF4 ∧
    combine ((Message.initial.set MID_RESET 0 NO_FEEDBACK).m_buf.getD 7 0)
            ((Message.initial.set MID_RESET 0 NO_FEEDBACK).m_buf.getD 8 0) ≠
      (65536 - specChecksummedSum (Message.initial.set MID_RESET 0 NO_FEEDBACK)) % 65536 := by
  decide

/-- Claim C1, amended: the checksummed bytes are those at offsets 1..6
(version, length, kind, feedback, param-hi, param-lo).  For every message
built by `set`, the stored 16-bit checksum is the twos-complement negation of
their 16-bit sum and the frame is valid; and `isValid` accepts a completed
10-byte frame iff that sum plus the stored checksum is zero modulo 2^16. -/
theorem C1_checksum_invariant (msgid param fb : Nat)
    (hm : msgid < 256) (hf : fb < 256) (hp : param < 65536) :
    (combine ((Message.initial.set msgid param fb).m_buf.getD 7 0)
             ((Message.initial.set msgid param fb).m_buf.getD 8 0)
       = (65536 - (Message.initial.set msgid param fb).sum) % 65536) ∧
    (Message.initial.set msgid param fb).isValid = true ∧
    (∀ m : Message, m.m_length = 10 →
      (m.isValid = true ↔
        (m.sum + combine (m.m_buf.getD 7 0) (m.m_buf.getD 8 0)) % 65536 = 0)) := by
  have hset := set_initial msgid param fb hm hf hp
  rw [hset]
  refine ⟨?_, ?_, ?_⟩
  · simp [combine, Message.sum, sumBytes, List.getD, VERSION, LENGTH]
    omega
  · simp [Message.isValid, Message.sum, sumBytes, combine, List.getD,
          ENDB, VERSION, LENGTH]
    omega
  · intro m hm10
    simp [Message.isValid, hm10]

/-- Claim C1, witness for the amended theorem at the reset command frame. -/
theorem C1_checksum_invariant_witness :
    (combine ((Message.initial.set 0x0C 0 0).m_buf.getD 7 0)
             ((Message.initial.set 0x0C 0 0).m_buf.getD 8 0)
       = (65536 - (Message.initial.set 0x0C 0 0).sum) % 65536) ∧
    (Message.initial.set 0x0C 0 0).isValid = true ∧
    (∀ m : Message, m.m_length = 10 →
      (m.isValid = true ↔
        (m.sum + combine (m.m_buf.getD 7 0) (m.m_buf.getD 8 0)) % 65536 = 0)) :=
  C1_checksum_invariant 0x0C 0 0 (by decide) (by decide) (by decide)

/-! Claim C2. -/

/-- Claim C2 (confirmed): for every message kind and 16-bit parameter, feeding
the 10 bytes produced by `set` into a fresh receiving message returns true
exactly on the 10th byte, and the completed frame is valid and returns the
same kind and parameter through `getMessageID` and `getParam`. -/
theorem C2_roundtrip (msgid param fb : Nat)
    (hmid : msgid ∈ msgIDs) (hp : param < 65536)
    (hf : fb = NO_FEEDBACK ∨ fb = FEEDBACK) :
    (Message.initial.feedAll (Message.initial.set msgid param fb).m_buf).1 =
      [false, false, false, false, false, false, false, false, false, true] ∧
    (Message.initial.feedAll (Message.initial.set msgid param fb).m_buf).2.isValid = true ∧
    (Message.initial.feedAll (Message.initial.set msgid param fb).m_buf).2.getMessageID
      = msgid ∧
    (Message.initial.feedAll (Message.initial.set msgid param fb).m_buf).2.getParam
      = param := by
  have hm : msgid < 256 := msgIDs_lt msgid hmid
  have hf2 : fb < 256 := by
    rcases hf with h | h <;> simp [h, NO_FEEDBACK, FEEDBACK]
  have hset := set_initial msgid param fb hm hf2 hp
  rw [hset]
  have hch : (65536 - (261 + msgid + fb + param / 256 + param % 256)) / 256 < 256 := by
    omega
  have hch2 : (65536 - (261 + msgid + fb + param / 256 + param % 256)) / 256 ≠ ENDB := by
    simp only [ENDB]
    omega
  have hfr := feed_frame 0 FEEDBACK 0 0 0 0 msgid fb (param / 256) (param % 256)
      ((65536 - (261 + msgid + fb + param / 256 + param % 256)) / 256)
      ((65536 - (261 + msgid + fb + param / 256 + param % 256)) % 256)
      0 (Or.inl rfl) hm hf2 (by omega) (by omega) hch (by omega) hch2
  simp only [Message.initial] at hfr ⊢
  rw [hfr]
  refine ⟨rfl, ?_, ?_, ?_⟩
  · simp [Message.isValid, Message.sum, sumBytes, combine, List.getD,
          ENDB, VERSION, LENGTH]
    omega
  · simp [Message.getMessageID, List.getD]
  · simp [Message.getParam, Message.getParamHi, Message.getParamLo, combine, List.getD]
    omega

/-- Claim C2, witness at the reset kind with parameter 0x1234. -/
theorem C2_roundtrip_witness :
    (Message.initial.feedAll (Message.initial.set 0x0C 0x1234 0x00).m_buf).1 =
      [false, false, false, false, false, false, false, false, false, true] ∧
    (Message.initial.feedAll (Message.initial.set 0x0C 0x1234 0x00).m_buf).2.isValid
      = true ∧
    (Message.initial.feedAll (Message.initial.set 0x0C 0x1234 0x00).m_buf).2.getMessageID
      = 0x0C ∧
    (Message.initial.feedAll (Message.initial.set 0x0C 0x1234 0x00).m_buf).2.getParam
      = 0x1234 :=
  C2_roundtrip 0x0C 0x1234 0x00 (by decide) (by decide) (Or.inl rfl)

/-! Claim C7. -/

/-- Claim C7 (confirmed): noise bytes that never equal the start byte,
followed by a valid checksummed 10-byte frame, produce exactly one
completed-frame signal, on the final byte of the frame. -/
theorem C7_resync (noise : List Nat) (k f ph pl ch cl : Nat)
    (hn : ∀ b ∈ noise, b < 256 ∧ b ≠ START)
    (hk : k < 256) (hf : f < 256) (hph : ph < 256) (hpl : pl < 256)
    (hch : ch < 256) (hcl : cl < 256)
    (hvalid : (Message.mk [START, VERSION, LENGTH, k, f, ph, pl, ch, cl, ENDB] 10).isValid
      = true) :
    (Message.initial.feedAll
        (noise ++ [START, VERSION, LENGTH, k, f, ph, pl, ch, cl, ENDB])).1 =
      noise.map (fun _ => false) ++
        [false, false, false, false, false, false, false, false, false, true] := by
  have harith : ((255 + 6 + k + f + ph + pl) % 65536 + (ch * 256 + cl)) % 65536 = 0 := by
    simp [Message.isValid, Message.sum, sumBytes, combine, List.getD,
          ENDB, VERSION, LENGTH, Nat.mod_eq_of_lt hch, Nat.mod_eq_of_lt hcl] at hvalid
    omega
  have hch2 : ch ≠ ENDB := by
    simp only [ENDB]
    omega
  have hnz := feed_noise [START, VERSION, LENGTH, 0, FEEDBACK, 0, 0, 0, 0, ENDB]
      (by rfl) noise hn
  have hfr := feed_frame 0 FEEDBACK 0 0 0 0 k f ph pl ch cl 0 (Or.inl rfl)
      hk hf hph hpl hch hcl hch2
  rw [show Message.initial = ⟨[START, VERSION, LENGTH, 0, FEEDBACK, 0, 0, 0, 0, ENDB], 0⟩
        from rfl,
      feedAll_append, hnz]
  simp [hfr]

/-- Claim C7, witness: two noise bytes followed by the reset command frame. -/
theorem C7_resync_witness :
    (Message.initial.feedAll
        ([0x00, 0x55] ++ [START, VERSION, LENGTH, 0x0C, 0, 0, 0, 0xFE, 0xEF, ENDB])).1 =
      [0x00, 0x55].map (fun _ => false) ++
        [false, false, false, false, false, false, false, false, false, true] :=
  C7_resync [0x00, 0x55] 0x0C 0 0 0 0xFE 0xEF (by decide) (by decide) (by decide)
    (by decide) (by decide) (by decide) (by decide) (by decide)

/-! Claim C8. -/

/-- Claim C8, counterexample: a completed 8-byte early-terminated frame (an
ack without checksum) followed by a valid checksummed 10-byte frame yields a
single completion signal, on the 8th byte of the first frame, and no signal
at all during the following valid frame, refuting the claim that the
accumulator behaves as reset after an 8-byte frame. -/
theorem C8_counterexample :
    Message.isValid ⟨[0x7E, 0xFF, 0x06, 0x0C, 0x00, 0x00, 0x00, 0xFE, 0xEF, 0xEF], 10⟩
      = true ∧
    (Message.initial.feedAll
        ([0x7E, 0xFF, 0x06, 0x41, 0x00, 0x00, 0x00, 0xEF] ++
         [0x7E, 0xFF, 0x06, 0x0C, 0x00, 0x00, 0x00, 0xFE, 0xEF, 0xEF])).1 =
      [false, false, false, false, false, false, false, true,
       false, false, false, false, false, false, false, false, false, false] := by
  decide

/-- Claim C8, amended: after a completed 10-byte checksummed frame the
accumulator does behave as reset — an immediately following valid 10-byte
frame produces exactly one completion signal, on its final byte; after an
8-byte early-terminated frame it does not — the bytes of an immediately
following valid frame produce no completion signal (shown at the ack frame
followed by the reset frame). -/
theorem C8_reset_after_ten (x3 x4 x5 x6 x7 x8 k f ph pl ch cl : Nat)
    (hk : k < 256) (hf : f < 256) (hph : ph < 256) (hpl : pl < 256)
    (hch : ch < 256) (hcl : cl < 256) (hch2 : ch ≠ ENDB) :
    (Message.feedAll ⟨[START, VERSION, LENGTH, x3, x4, x5, x6, x7, x8, ENDB], 10⟩
        [START, VERSION, LENGTH, k, f, ph, pl, ch, cl, ENDB]).1 =
      [false, false, false, false, false, false, false, false, false, true] ∧
    (Message.feedAll ⟨[0x7E, 0xFF, 0x06, 0x41, 0x00, 0x00, 0x00, 0x00, 0x00, 0xEF], 8⟩
        [0x7E, 0xFF, 0x06, 0x0C, 0x00, 0x00, 0x00, 0xFE, 0xEF, 0xEF]).1 =
      [false, false, false, false, false, false, false, false, false, false] := by
  refine ⟨?_, by decide⟩
  rw [feed_frame x3 x4 x5 x6 x7 x8 k f ph pl ch cl 10 (Or.inr rfl)
      hk hf hph hpl hch hcl hch2]

/-- Claim C8, witness for the amended theorem: a stop frame follows a
completed reset frame. -/
theorem C8_reset_after_ten_witness :
    (Message.feedAll ⟨[START, VERSION, LENGTH, 0x0C, 0, 0, 0, 0xFE, 0xEF, ENDB], 10⟩
        [START, VERSION, LENGTH, 0x16, 0, 0, 0, 0xFE, 0xE5, ENDB]).1 =
      [false, false, false, false, false, false, false, false, false, true] ∧
    (Message.feedAll ⟨[0x7E, 0xFF, 0x06, 0x41, 0x00, 0x00, 0x00, 0x00, 0x00, 0xEF], 8⟩
        [0x7E, 0xFF, 0x06, 0x0C, 0x00, 0x00, 0x00, 0xFE, 0xEF, 0xEF]).1 =
      [false, false, false, false, false, false, false, false, false, false] :=
  C8_reset_after_ten 0x0C 0 0 0 0xFE 0xEF 0x16 0 0 0 0xFE 0xE5
    (by decide) (by decide) (by decide) (by decide) (by decide) (by decide) (by decide)

/-! Helper lemmas about the state machine. -/

/-- No event handler reassigns the active-state pointer itself; transitions
happen only through the returned state. -/
theorem stateOnEvent_mstate (s : StateId) (m : Mod) (msgid hi lo : Nat) :
    ((stateOnEvent s m msgid hi lo).1).m_state = m.m_state := by
  cases s <;> simp only [stateOnEvent] <;> split_ifs <;>
    simp [sendCommand, sendMessage, sendQuery, queryFileCount,
          queryFirmwareVersion, queryFolderCount, selectSource]

/-- No event handler invokes a notification hook. -/
theorem stateOnEvent_notes (s : StateId) (m : Mod) (msgid hi lo : Nat) :
    ((stateOnEvent s m msgid hi lo).1).notes = m.notes := by
  cases s <;> simp only [stateOnEvent] <;> split_ifs <;>
    simp [sendCommand, sendMessage, sendQuery, queryFileCount,
          queryFirmwareVersion, queryFolderCount, selectSource]

/-- Every entry action requests its own state (no handler chains on entry). -/
theorem stateOnEvent_enter (s : StateId) (m : Mod) :
    (stateOnEvent s m MID_ENTERSTATE 0 0).2 = some s := by
  cases s <;> simp [stateOnEvent, MID_ENTERSTATE]

/-- One unrolling of the transition loop. -/
theorem setStateAux_succ (fuel : Nat) (original : Option StateId) (m : Mod)
    (new : Option StateId) :
    setStateAux (fuel + 1) original m new =
      if m.m_state = new then m
      else
        match new with
        | none => { m with m_state := none }
        | some s =>
          let m1 := { m with m_state := some s }
          let p := stateOnEvent s m1 MID_ENTERSTATE 0 0
          if p.1.m_state = original then p.1
          else setStateAux fuel original p.1 p.2 := rfl

/-- Setting the already-active state is a no-op: the transition loop exits
before the entry action runs. -/
theorem setState_stay (m : Mod) (new : Option StateId) (h : m.m_state = new) :
    setState m new = m := by
  unfold setState
  rw [show (16 : Nat) = 15 + 1 from rfl, setStateAux_succ, if_pos h]

/-- Transitioning to the terminal null state just clears the pointer. -/
theorem setState_none (m : Mod) (h : m.m_state ≠ none) :
    setState m none = { m with m_state := none } := by
  unfold setState
  rw [show (16 : Nat) = 15 + 1 from rfl, setStateAux_succ, if_neg h]

/-- Transitioning to a different state runs that state's entry action once
and stabilizes. -/
theorem setState_enter (m : Mod) (s : StateId) (h : m.m_state ≠ some s) :
    setState m (some s) =
      (stateOnEvent s { m with m_state := some s } MID_ENTERSTATE 0 0).1 := by
  have h1 : (stateOnEvent s { m with m_state := some s } MID_ENTERSTATE 0 0).1.m_state
      = some s := by rw [stateOnEvent_mstate]
  have h2 := stateOnEvent_enter s { m with m_state := some s }
  unfold setState
  rw [show (16 : Nat) = 15 + 1 from rfl, setStateAux_succ, if_neg h]
  simp only [h2]
  rw [if_neg (by rw [h1]; exact fun hh => h hh.symm)]
  rw [show (15 : Nat) = 14 + 1 from rfl, setStateAux_succ, if_pos h1]

/-- The checksum computed by `set` makes the frame pass `isValid`. -/
theorem set_initial_valid (msgid param fb : Nat)
    (hm : msgid < 256) (hf : fb < 256) (hp : param < 65536) :
    (Message.initial.set msgid param fb).isValid = true := by
  rw [set_initial msgid param fb hm hf hp]
  simp [Message.isValid, Message.sum, sumBytes, combine, List.getD,
        ENDB, VERSION, LENGTH]
  omega

/-- The transition loop never invokes a notification hook. -/
theorem setStateAux_notes (fuel : Nat) (original : Option StateId) (m : Mod)
    (new : Option StateId) : (setStateAux fuel original m new).notes = m.notes := by
  induction fuel generalizing m new with
  | zero => rfl
  | succ n ih =>
    rw [setStateAux_succ]
    by_cases h1 : m.m_state = new
    · simp [h1]
    · simp only [if_neg h1]
      cases new with
      | none => rfl
      | some s =>
        simp only []
        by_cases h2 : (stateOnEvent s { m with m_state := some s }
            MID_ENTERSTATE 0 0).1.m_state = original
        · simp only [if_pos h2, stateOnEvent_notes]
        · simp only [if_neg h2]
          rw [ih, stateOnEvent_notes]

/-- `setState` never invokes a notification hook. -/
theorem setState_notes (m : Mod) (new : Option StateId) :
    (setState m new).notes = m.notes := setStateAux_notes 16 m.m_state m new

/-- The state-machine delivery path never invokes a notification hook. -/
theorem dispatchEvent_notes (m : Mod) (msgid hi lo : Nat) :
    (dispatchEvent m msgid hi lo).notes = m.notes := by
  unfold dispatchEvent
  cases h : m.m_state with
  | none => rfl
  | some s => rw [setState_notes, stateOnEvent_notes]

/-- Bring-up step: init-complete in resetting-hardware chains into
getting-version, whose entry action sends the firmware-version query. -/
theorem dispatch_initcomplete (m : Mod) (hi lo : Nat)
    (h : m.m_state = some StateId.initResettingHardware) :
    (dispatchEvent m MID_INITCOMPLETE hi lo).m_state
      = some StateId.initGettingVersion ∧
    (dispatchEvent m MID_INITCOMPLETE hi lo).m_source = m.m_source ∧
    (dispatchEvent m MID_INITCOMPLETE hi lo).m_files = m.m_files ∧
    (dispatchEvent m MID_INITCOMPLETE hi lo).m_folders = m.m_folders := by
  have hne : m.m_state ≠ some StateId.initGettingVersion := by rw [h]; simp
  unfold dispatchEvent
  rw [h]
  simp only [stateOnEvent, MID_INITCOMPLETE, MID_ENTERSTATE, MID_ERROR]
  norm_num
  rw [setState_enter _ _ hne]
  simp [stateOnEvent, MID_ENTERSTATE, queryFirmwareVersion, sendQuery,
        sendCommand, sendMessage]

/-- Bring-up step: a firmware-version response in getting-version chains into
checking-USB-file-count, whose entry action sends the USB file-count query. -/
theorem dispatch_version (m : Mod) (hi lo : Nat)
    (h : m.m_state = some StateId.initGettingVersion) :
    (dispatchEvent m MID_FIRMWAREVERSION hi lo).m_state
      = some StateId.initCheckingUSBFileCount ∧
    (dispatchEvent m MID_FIRMWAREVERSION hi lo).m_source = m.m_source ∧
    (dispatchEvent m MID_FIRMWAREVERSION hi lo).m_files = m.m_files ∧
    (dispatchEvent m MID_FIRMWAREVERSION hi lo).m_folders = m.m_folders := by
  have hne : m.m_state ≠ some StateId.initCheckingUSBFileCount := by rw [h]; simp
  unfold dispatchEvent
  rw [h]
  simp only [stateOnEvent, MID_FIRMWAREVERSION, MID_ENTERSTATE, MID_ERROR]
  norm_num
  rw [setState_enter _ _ hne]
  simp [stateOnEvent, MID_ENTERSTATE, queryFileCount, sendQuery,
        sendCommand, sendMessage]

/-- Bring-up step: a nonzero USB file count in checking-USB-file-count
records the count and chains into selecting-USB, whose entry action sends the
select-source command. -/
theorem dispatch_usbcount (m : Mod) (hi lo : Nat)
    (h : m.m_state = some StateId.initCheckingUSBFileCount)
    (hc : 0 < combine hi lo) :
    (dispatchEvent m MID_USBFILECOUNT hi lo).m_state
      = some StateId.initSelectingUSB ∧
    (dispatchEvent m MID_USBFILECOUNT hi lo).m_source = m.m_source ∧
    (dispatchEvent m MID_USBFILECOUNT hi lo).m_files = combine hi lo ∧
    (dispatchEvent m MID_USBFILECOUNT hi lo).m_folders = m.m_folders := by
  have hne : ({ m with m_files := combine hi lo } : Mod).m_state
      ≠ some StateId.initSelectingUSB := by rw [h]; simp
  unfold dispatchEvent
  rw [h]
  simp only [stateOnEvent, MID_USBFILECOUNT, MID_ENTERSTATE, MID_ERROR]
  norm_num
  rw [if_pos hc, setState_enter _ _ hne]
  simp [stateOnEvent, MID_ENTERSTATE, selectSource, sendCommand, sendMessage]

/-- Bring-up step: an ack in selecting-USB records USB as the source and
chains into checking-folder-count, whose entry action sends the folder-count
query. -/
theorem dispatch_ack_usb (m : Mod) (hi lo : Nat)
    (h : m.m_state = some StateId.initSelectingUSB) :
    (dispatchEvent m MID_ACK hi lo).m_state
      = some StateId.initCheckingFolderCount ∧
    (dispatchEvent m MID_ACK hi lo).m_source = Device.DEV_USB ∧
    (dispatchEvent m MID_ACK hi lo).m_files = m.m_files ∧
    (dispatchEvent m MID_ACK hi lo).m_folders = m.m_folders := by
  have hne : ({ m with m_source := Device.DEV_USB } : Mod).m_state
      ≠ some StateId.initCheckingFolderCount := by rw [h]; simp
  unfold dispatchEvent
  rw [h]
  simp only [stateOnEvent, MID_ACK, MID_ENTERSTATE]
  norm_num
  rw [setState_enter _ _ hne]
  simp [stateOnEvent, MID_ENTERSTATE, queryFolderCount, sendQuery,
        sendCommand, sendMessage]

/-- Bring-up step: a folder-count response in checking-folder-count records
the low parameter byte as the folder count and ends bring-up (terminal null
state). -/
theorem dispatch_foldercount (m : Mod) (hi lo : Nat)
    (h : m.m_state = some StateId.initCheckingFolderCount) :
    (dispatchEvent m MID_FOLDERCOUNT hi lo).m_state = none ∧
    (dispatchEvent m MID_FOLDERCOUNT hi lo).m_source = m.m_source ∧
    (dispatchEvent m MID_FOLDERCOUNT hi lo).m_files = m.m_files ∧
    (dispatchEvent m MID_FOLDERCOUNT hi lo).m_folders = lo % 256 := by
  have hne : ({ m with m_folders := lo % 256 } : Mod).m_state ≠ none := by
    rw [h]; simp
  unfold dispatchEvent
  rw [h]
  simp only [stateOnEvent, MID_FOLDERCOUNT, MID_ENTERSTATE]
  norm_num
  rw [setState_none _ hne]
  simp

/-! Claim C9. -/

/-- Claim C9, counterexample: when the current state is already
resetting-hardware, `reset()` is a no-op — the transition loop exits before
the entry action, so no reset command is sent and no timeout armed, refuting
the claim that `reset()` performs the entry action from every state. -/
theorem C9_counterexample :
    (reset Mod.initial).m_state = some StateId.initResettingHardware ∧
    (reset Mod.initial).sent.length = 1 ∧
    reset (reset Mod.initial) = reset Mod.initial ∧
    (reset (reset Mod.initial)).sent.length = 1 := by decide

/-- Claim C9, amended: calling `reset()` from any state other than
resetting-hardware itself (the terminal null state included) activates
resetting-hardware and performs its entry action — the reset command frame is
sent and the long 10000-unit timeout armed; from resetting-hardware itself,
`reset()` leaves the engine unchanged without re-entering. -/
theorem C9_reset_restarts (m : Mod)
    (h : m.m_state ≠ some StateId.initResettingHardware) :
    (reset m).m_state = some StateId.initResettingHardware ∧
    (reset m).sent = m.sent ++ [m.m_out.set MID_RESET 0 NO_FEEDBACK] ∧
    (reset m).m_timeout = some 10000 := by
  unfold reset
  rw [setState_enter m _ h]
  simp [stateOnEvent, sendCommand, sendMessage, MID_ENTERSTATE, MID_RESET,
        NO_FEEDBACK, FEEDBACK]

/-- Claim C9, witness: a reset from the terminal null state. -/
theorem C9_reset_restarts_witness :
    (reset Mod.initial).m_state = some StateId.initResettingHardware ∧
    (reset Mod.initial).sent
      = Mod.initial.sent ++ [Mod.initial.m_out.set MID_RESET 0 NO_FEEDBACK] ∧
    (reset Mod.initial).m_timeout = some 10000 :=
  C9_reset_restarts Mod.initial (by decide)

/-! Claim C5. -/

/-- Claim C5, counterexample: an expired timeout in the terminal null state
only disarms the timer — no TIMED-OUT error event is synthesized and nothing
reaches the Notification Dispatcher; and even with a bring-up state active
(getting-version shown: the state machine does advance), the Notification
Dispatcher hooks are never invoked.  This refutes the claim that the
synthesized error reaches the dispatcher in every state. -/
theorem C5_counterexample :
    checkForTimeout { Mod.initial with m_timeout := some 200 } true
      = Mod.initial ∧
    (checkForTimeout { Mod.initial with m_timeout := some 200 } true).notes
      = [] ∧
    (checkForTimeout { Mod.initial with m_state := some StateId.initGettingVersion, m_timeout := some 200 } true).m_state
      = some StateId.initCheckingUSBFileCount ∧
    (checkForTimeout { Mod.initial with m_state := some StateId.initGettingVersion, m_timeout := some 200 } true).notes
      = [] := by decide

/-- Claim C5, amended: on expiry the engine disarms the timer and routes a
synthetic MID-ERROR event carrying code TIMED-OUT through the state-event
dispatch path — the same path a validated inbound frame takes to the active
bring-up state — but the Notification Dispatcher is not invoked, and in the
terminal null state no event is synthesized at all. -/
theorem C5_timeout_path (m : Mod) :
    checkForTimeout m true =
      dispatchEvent { m with m_timeout := none } MID_ERROR
        (high EC_TIMEDOUT) (low EC_TIMEDOUT) ∧
    (checkForTimeout m true).notes = m.notes ∧
    (m.m_state = none → checkForTimeout m true = { m with m_timeout := none }) := by
  have hpath : checkForTimeout m true =
      dispatchEvent { m with m_timeout := none } MID_ERROR
        (high EC_TIMEDOUT) (low EC_TIMEDOUT) := rfl
  refine ⟨hpath, ?_, ?_⟩
  · rw [hpath, dispatchEvent_notes]
  · intro h
    unfold checkForTimeout
    simp [h]

/-- Claim C5, witness: an expired timeout with no active state. -/
theorem C5_timeout_path_witness :
    checkForTimeout { Mod.initial with m_timeout := some 200 } true =
      { { Mod.initial with m_timeout := some 200 } with m_timeout := none } :=
  (C5_timeout_path { Mod.initial with m_timeout := some 200 }).2.2 rfl

/-! Claim C4. -/

/-- Claim C4, counterexample: a completed 10-byte ack frame with a wrong
checksum is still forwarded to the Notification Dispatcher — the decoded
per-kind hook `onAck` runs before validation — and only then triggers the
invalid-message hook; the active bring-up state is not invoked (the
selecting-USB state would have recorded a source on an ack).  The dispatcher
forwarding refutes the claim. -/
theorem C4_counterexample :
    Message.isValid ⟨[0x7E, 0xFF, 0x06, 0x41, 0, 0, 0, 0, 0, 0xEF], 10⟩ = false ∧
    (receiveMessage { Mod.initial with m_state := some StateId.initSelectingUSB }
        ⟨[0x7E, 0xFF, 0x06, 0x41, 0, 0, 0, 0, 0, 0xEF], 10⟩).notes
      = [Note.ack, Note.invalidMessage] ∧
    (receiveMessage { Mod.initial with m_state := some StateId.initSelectingUSB }
        ⟨[0x7E, 0xFF, 0x06, 0x41, 0, 0, 0, 0, 0, 0xEF], 10⟩).m_state
      = some StateId.initSelectingUSB ∧
    (receiveMessage { Mod.initial with m_state := some StateId.initSelectingUSB }
        ⟨[0x7E, 0xFF, 0x06, 0x41, 0, 0, 0, 0, 0, 0xEF], 10⟩).m_source
      = Mod.initial.m_source := by decide

/-- Claim C4, amended: a frame that completes its byte pattern but fails the
checksum is forwarded to the Notification Dispatcher per-kind hooks (the
dispatcher runs on every completed frame, before validation), then triggers
the invalid-message notification, and is not delivered to the active bring-up
state — the engine state, outbound traffic and timer are untouched. -/
theorem C4_invalid_message_path (m : Mod) (msg : Message)
    (h : msg.isValid = false) :
    receiveMessage m msg =
      { m with notes := m.notes ++ (onMessageReceived msg ++ [Note.invalidMessage]) } := by
  unfold receiveMessage
  rw [h]
  simp

/-- Claim C4, witness: the corrupted ack frame against a fresh module. -/
theorem C4_invalid_message_path_witness :
    receiveMessage Mod.initial ⟨[0x7E, 0xFF, 0x06, 0x41, 0, 0, 0, 0, 0, 0xEF], 10⟩ =
      { Mod.initial with notes := Mod.initial.notes ++
          (onMessageReceived ⟨[0x7E, 0xFF, 0x06, 0x41, 0, 0, 0, 0, 0, 0xEF], 10⟩ ++
           [Note.invalidMessage]) } :=
  C4_invalid_message_path Mod.initial _ (by decide)

/-! Claim C6. -/

/-- Claim C6, counterexample: `playTrack(16, 1)` does transmit a frame — the
small-folder branch has no folder range check, so it sends play-from-folder
with parameter (16 shl 8) or 1 = 0x1001 — refuting the claim that this call
produces no transmitted frame. -/
theorem C6_counterexample :
    (playTrack Mod.initial 16 1).sent.map (fun fr => (fr.getMessageID, fr.getParam))
      = [(MID_PLAYFROMFOLDER, 0x1001)] ∧
    (playTrack Mod.initial 16 1).sent ≠ [] := by decide

/-- Claim C6, amended: `playTrack(1, 255)` transmits the small-folder
encoding with parameter 0x01FF; `playTrack(1, 256)` the big-folder encoding
with parameter 0x1100; `playTrack(16, 1)` also transmits the small-folder
encoding (parameter 0x1001), since the track-below-256 branch does not range
check the folder; and `playTrack(1, 3001)` transmits no frame at all. -/
theorem C6_track_addressing (m : Mod) :
    (playTrack m 1 255).sent
      = m.sent ++ [m.m_out.set MID_PLAYFROMFOLDER 0x01FF FEEDBACK] ∧
    (playTrack m 1 256).sent
      = m.sent ++ [m.m_out.set MID_PLAYFROMBIGFOLDER 0x1100 FEEDBACK] ∧
    (playTrack m 16 1).sent
      = m.sent ++ [m.m_out.set MID_PLAYFROMFOLDER 0x1001 FEEDBACK] ∧
    (playTrack m 1 3001).sent = m.sent := by
  refine ⟨?_, ?_, ?_, ?_⟩ <;>
    simp [playTrack, sendCommand, sendMessage, FEEDBACK, NO_FEEDBACK,
          MID_PLAYFROMFOLDER, MID_PLAYFROMBIGFOLDER]

/-! Claim C3. -/

/-- Claim C3, counterexample: the bring-up happy path with a folder-count
response reporting 256 folders (parameter high byte 1, low byte 0) runs
through the claimed state sequence, but the session folder counter ends at 0,
not at the reported count 256 — the handler stores only the low parameter
byte — refuting the claim that the folder counter is set to the folder count
reported in the final response. -/
theorem C3_counterexample :
    (dispatchEvent (dispatchEvent (dispatchEvent (dispatchEvent (dispatchEvent (reset Mod.initial) MID_INITCOMPLETE 0 3) MID_FIRMWAREVERSION 0 8) MID_USBFILECOUNT 0 5) MID_ACK 0 0) MID_FOLDERCOUNT 1 0).m_state = none ∧
    (dispatchEvent (dispatchEvent (dispatchEvent (dispatchEvent (dispatchEvent (reset Mod.initial) MID_INITCOMPLETE 0 3) MID_FIRMWAREVERSION 0 8) MID_USBFILECOUNT 0 5) MID_ACK 0 0) MID_FOLDERCOUNT 1 0).m_source = Device.DEV_USB ∧
    combine 1 0 = 256 ∧
    (dispatchEvent (dispatchEvent (dispatchEvent (dispatchEvent (dispatchEvent (reset Mod.initial) MID_INITCOMPLETE 0 3) MID_FIRMWAREVERSION 0 8) MID_USBFILECOUNT 0 5) MID_ACK 0 0) MID_FOLDERCOUNT 1 0).m_folders = 0 ∧
    (dispatchEvent (dispatchEvent (dispatchEvent (dispatchEvent (dispatchEvent (reset Mod.initial) MID_INITCOMPLETE 0 3) MID_FIRMWAREVERSION 0 8) MID_USBFILECOUNT 0 5) MID_ACK 0 0) MID_FOLDERCOUNT 1 0).m_folders ≠ combine 1 0 := by
  decide

/-- Claim C3, amended: from resetting-hardware, delivering init-complete,
firmware-version, a nonzero USB file count, ack, and folder-count drives the
machine through getting-version, checking-USB-file-count, selecting-USB and
checking-folder-count to the terminal null state, in that exact order, with
the selected-device counter set to USB and the folder counter set to the low
byte of the folder count reported in the final response. -/
theorem C3_bringup_happy_path (aHi aLo vHi vLo cHi cLo bHi bLo fHi fLo : Nat)
    (hc : 0 < combine cHi cLo) (hfLo : fLo < 256) :
    (reset Mod.initial).m_state = some StateId.initResettingHardware ∧
    (dispatchEvent (reset Mod.initial) MID_INITCOMPLETE aHi aLo).m_state = some StateId.initGettingVersion ∧
    (dispatchEvent (dispatchEvent (reset Mod.initial) MID_INITCOMPLETE aHi aLo) MID_FIRMWAREVERSION vHi vLo).m_state = some StateId.initCheckingUSBFileCount ∧
    (dispatchEvent (dispatchEvent (dispatchEvent (reset Mod.initial) MID_INITCOMPLETE aHi aLo) MID_FIRMWAREVERSION vHi vLo) MID_USBFILECOUNT cHi cLo).m_state = some StateId.initSelectingUSB ∧
    (dispatchEvent (dispatchEvent (dispatchEvent (dispatchEvent (reset Mod.initial) MID_INITCOMPLETE aHi aLo) MID_FIRMWAREVERSION vHi vLo) MID_USBFILECOUNT cHi cLo) MID_ACK bHi bLo).m_state = some StateId.initCheckingFolderCount ∧
    (dispatchEvent (dispatchEvent (dispatchEvent (dispatchEvent (dispatchEvent (reset Mod.initial) MID_INITCOMPLETE aHi aLo) MID_FIRMWAREVERSION vHi vLo) MID_USBFILECOUNT cHi cLo) MID_ACK bHi bLo) MID_FOLDERCOUNT fHi fLo).m_state = none ∧
    (dispatchEvent (dispatchEvent (dispatchEvent (dispatchEvent (dispatchEvent (reset Mod.initial) MID_INITCOMPLETE aHi aLo) MID_FIRMWAREVERSION vHi vLo) MID_USBFILECOUNT cHi cLo) MID_ACK bHi bLo) MID_FOLDERCOUNT fHi fLo).m_source = Device.DEV_USB ∧
    (dispatchEvent (dispatchEvent (dispatchEvent (dispatchEvent (dispatchEvent (reset Mod.initial) MID_INITCOMPLETE aHi aLo) MID_FIRMWAREVERSION vHi vLo) MID_USBFILECOUNT cHi cLo) MID_ACK bHi bLo) MID_FOLDERCOUNT fHi fLo).m_folders = fLo := by
  have h0 : (reset Mod.initial).m_state = some StateId.initResettingHardware := by
    decide
  obtain ⟨h1a, h1b, h1c, h1d⟩ := dispatch_initcomplete (reset Mod.initial) aHi aLo h0
  obtain ⟨h2a, h2b, h2c, h2d⟩ := dispatch_version _ vHi vLo h1a
  obtain ⟨h3a, h3b, h3c, h3d⟩ := dispatch_usbcount _ cHi cLo h2a hc
  obtain ⟨h4a, h4b, h4c, h4d⟩ := dispatch_ack_usb _ bHi bLo h3a
  obtain ⟨h5a, h5b, h5c, h5d⟩ := dispatch_foldercount _ fHi fLo h4a
  refine ⟨h0, h1a, h2a, h3a, h4a, h5a, ?_, ?_⟩
  · rw [h5b, h4b]
  · rw [h5d, Nat.mod_eq_of_lt hfLo]

/-- Claim C3, witness: a five-file USB stick and seven folders. -/
theorem C3_bringup_happy_path_witness :
    (reset Mod.initial).m_state = some StateId.initResettingHardware ∧
    (dispatchEvent (reset Mod.initial) MID_INITCOMPLETE 0 3).m_state = some StateId.initGettingVersion ∧
    (dispatchEvent (dispatchEvent (reset Mod.initial) MID_INITCOMPLETE 0 3) MID_FIRMWAREVERSION 0 8).m_state = some StateId.initCheckingUSBFileCount ∧
    (dispatchEvent (dispatchEvent (dispatchEvent (reset Mod.initial) MID_INITCOMPLETE 0 3) MID_FIRMWAREVERSION 0 8) MID_USBFILECOUNT 0 5).m_state = some StateId.initSelectingUSB ∧
    (dispatchEvent (dispatchEvent (dispatchEvent (dispatchEvent (reset Mod.initial) MID_INITCOMPLETE 0 3) MID_FIRMWAREVERSION 0 8) MID_USBFILECOUNT 0 5) MID_ACK 0 0).m_state = some StateId.initCheckingFolderCount ∧
    (dispatchEvent (dispatchEvent (dispatchEvent (dispatchEvent (dispatchEvent (reset Mod.initial) MID_INITCOMPLETE 0 3) MID_FIRMWAREVERSION 0 8) MID_USBFILECOUNT 0 5) MID_ACK 0 0) MID_FOLDERCOUNT 0 7).m_state = none ∧
    (dispatchEvent (dispatchEvent (dispatchEvent (dispatchEvent (dispatchEvent (reset Mod.initial) MID_INITCOMPLETE 0 3) MID_FIRMWAREVERSION 0 8) MID_USBFILECOUNT 0 5) MID_ACK 0 0) MID_FOLDERCOUNT 0 7).m_source = Device.DEV_USB ∧
    (dispatchEvent (dispatchEvent (dispatchEvent (dispatchEvent (dispatchEvent (reset Mod.initial) MID_INITCOMPLETE 0 3) MID_FIRMWAREVERSION 0 8) MID_USBFILECOUNT 0 5) MID_ACK 0 0) MID_FOLDERCOUNT 0 7).m_folders = 7 :=
  C3_bringup_happy_path 0 3 0 8 0 5 0 0 0 7 (by decide) (by decide)

/-! Claim C10. -/

/-- Claim C10 (confirmed): during bring-up the checking-folder-count handler
stores only the low byte of the folder-count response parameter in the 8-bit
session counter, while the `onFolderCount` notification raised for the same
frame carries the full 16-bit parameter; for any reported count of 256 or
more, the recorded counter therefore differs from the notified count. -/
theorem C10_folder_count_low_byte (m : Mod) (fHi fLo : Nat)
    (hHi : fHi < 256) (hLo : fLo < 256)
    (hstate : m.m_state = some StateId.initCheckingFolderCount) :
    (receiveMessage m (Message.initial.set MID_FOLDERCOUNT (combine fHi fLo) NO_FEEDBACK)).m_folders = fLo ∧
    Note.folderCount (combine fHi fLo)
      ∈ (receiveMessage m (Message.initial.set MID_FOLDERCOUNT (combine fHi fLo) NO_FEEDBACK)).notes ∧
    (256 ≤ combine fHi fLo →
      (receiveMessage m (Message.initial.set MID_FOLDERCOUNT (combine fHi fLo) NO_FEEDBACK)).m_folders
        ≠ combine fHi fLo) := by
  have hcomb : combine fHi fLo < 65536 := by simp [combine]; omega
  have hfrm := set_initial MID_FOLDERCOUNT (combine fHi fLo) NO_FEEDBACK
      (by norm_num [MID_FOLDERCOUNT]) (by norm_num [NO_FEEDBACK]) hcomb
  have hval := set_initial_valid MID_FOLDERCOUNT (combine fHi fLo) NO_FEEDBACK
      (by norm_num [MID_FOLDERCOUNT]) (by norm_num [NO_FEEDBACK]) hcomb
  have hmid : (Message.initial.set MID_FOLDERCOUNT (combine fHi fLo) NO_FEEDBACK).getMessageID
      = MID_FOLDERCOUNT := by
    rw [hfrm]; simp [Message.getMessageID, List.getD]
  have hpHi : (Message.initial.set MID_FOLDERCOUNT (combine fHi fLo) NO_FEEDBACK).getParamHi
      = fHi := by
    rw [hfrm]; simp [Message.getParamHi, List.getD, combine]; omega
  have hpLo : (Message.initial.set MID_FOLDERCOUNT (combine fHi fLo) NO_FEEDBACK).getParamLo
      = fLo := by
    rw [hfrm]; simp [Message.getParamLo, List.getD, combine]; omega
  have hparam : (Message.initial.set MID_FOLDERCOUNT (combine fHi fLo) NO_FEEDBACK).getParam
      = combine fHi fLo := by
    rw [Message.getParam, hpHi, hpLo]
  have hnotes : onMessageReceived (Message.initial.set MID_FOLDERCOUNT (combine fHi fLo) NO_FEEDBACK)
      = [Note.folderCount (combine fHi fLo)] := by
    rw [onMessageReceived]
    rw [hmid, hparam]
    norm_num [MID_FOLDERCOUNT]
  have hres : receiveMessage m (Message.initial.set MID_FOLDERCOUNT (combine fHi fLo) NO_FEEDBACK)
      = { m with m_state := none, m_folders := fLo % 256, notes := m.notes ++ [Note.folderCount (combine fHi fLo)] } := by
    unfold receiveMessage
    rw [hval, hnotes]
    simp only [hstate, hmid, hpHi, hpLo]
    rw [stateOnEvent]
    simp only [MID_FOLDERCOUNT, MID_ENTERSTATE]
    norm_num
    rw [setState_none _ (by simp [hstate])]
  rw [hres]
  refine ⟨by simp [Nat.mod_eq_of_lt hLo], by simp, ?_⟩
  intro hge
  simp only []
  omega

/-- Claim C10, witness: a folder-count response reporting 256 folders. -/
theorem C10_folder_count_low_byte_witness :
    (receiveMessage { Mod.initial with m_state := some StateId.initCheckingFolderCount } (Message.initial.set MID_FOLDERCOUNT (combine 1 0) NO_FEEDBACK)).m_folders = 0 ∧
    Note.folderCount (combine 1 0)
      ∈ (receiveMessage { Mod.initial with m_state := some StateId.initCheckingFolderCount } (Message.initial.set MID_FOLDERCOUNT (combine 1 0) NO_FEEDBACK)).notes ∧
    (256 ≤ combine 1 0 →
      (receiveMessage { Mod.initial with m_state := some StateId.initCheckingFolderCount } (Message.initial.set MID_FOLDERCOUNT (combine 1 0) NO_FEEDBACK)).m_folders
        ≠ combine 1 0) :=
  C10_folder_count_low_byte { Mod.initial with m_state := some StateId.initCheckingFolderCount }
    1 0 (by decide) (by decide) rfl

end BasicAudioModule
